import Mathlib

/-!
Verification of the catalog service of the `onlinez` storefront.

The development shallowly embeds the data model of `types/product.ts`
(`Product`, `SearchParams`) and the three operations of `lib/amazon-api.ts`
(`searchProducts`, `getProductByASIN`, `getFeaturedProducts`) together with the
module-level seed array `MOCK_PRODUCTS`, and proves the behavioural properties
of the catalog/search layer against these definitions.

Numeric product fields (`price.value`, `rating`) are JavaScript numbers in the
source; every value occurring in the catalog and every comparison performed by
the code is exact on decimals, so they are embedded as rationals, written with
`mkRat n 100` (resp. `mkRat n 10`) for the source's two-(one-)decimal literals.
-/

namespace Onlinez

/-- Characterwise lowercasing, modelling JavaScript's
`String.prototype.toLowerCase` as used by `searchProducts` (ASCII case
mapping, which covers every cased character occurring in the catalog). -/
def toLowerCase (s : String) : String := ⟨s.data.map Char.toLower⟩

/-- Modelling JavaScript's `String.prototype.includes`:
`includesStr hay needle` is `true` exactly when `needle` occurs as a
contiguous substring of `hay`. -/
def includesStr (hay needle : String) : Bool :=
  decide (List.IsInfix needle.data hay.data)

/-- The `price` field shape of `Product` in `types/product.ts`. -/
structure Price where
  value : ℚ
  currency : String
  displayAmount : String
deriving Repr, DecidableEq

/-- The three-resolution primary image record of `types/product.ts`. -/
structure PrimaryImage where
  small : String
  medium : String
  large : String
deriving Repr, DecidableEq

/-- The `images` field shape of `Product` in `types/product.ts`. -/
structure ProductImages where
  primary : PrimaryImage
deriving Repr, DecidableEq

/-- The `Product` interface of `types/product.ts`; optional fields of the
TypeScript interface become `Option`s. -/
structure Product where
  asin : String
  title : String
  price : Option Price
  images : Option ProductImages
  rating : Option ℚ
  reviewCount : Option Nat
  isPrime : Option Bool
  detailPageURL : String
  availability : Option String
  brand : Option String
  features : Option (List String)
deriving Repr, DecidableEq

/-- The `SearchParams` interface of `types/product.ts`; all fields optional. -/
structure SearchParams where
  keywords : Option String
  category : Option String
  minPrice : Option ℚ
  maxPrice : Option ℚ
  page : Option Nat
deriving Repr, DecidableEq

/-- Empty/default criteria: the `search({})` call shape, no filter supplied. -/
def emptyParams : SearchParams :=
  { keywords := none, category := none, minPrice := none, maxPrice := none, page := none }

/-- First entry of `MOCK_PRODUCTS` in `lib/amazon-api.ts`. -/
def product1 : Product :=
  { asin := "B08N5WRWNW"
    title := "Apple AirPods Pro (2nd Generation)"
    price := some { value := mkRat 24999 100, currency := "USD", displayAmount := "$249.99" }
    images := some { primary :=
      { small := "https://images.unsplash.com/photo-1606841837239-c5a1a4a07af7?w=300&h=300&fit=crop"
        medium := "https://images.unsplash.com/photo-1606841837239-c5a1a4a07af7?w=500&h=500&fit=crop"
        large := "https://images.unsplash.com/photo-1606841837239-c5a1a4a07af7?w=800&h=800&fit=crop" } }
    rating := some (mkRat 47 10)
    reviewCount := some 15420
    isPrime := some true
    detailPageURL := "https://amazon.com/dp/B08N5WRWNW"
    availability := some "In Stock"
    brand := some "Apple"
    features := some ["Active Noise Cancellation", "Adaptive Transparency",
      "Personalized Spatial Audio", "Up to 6 hours listening time"] }

/-- Second entry of `MOCK_PRODUCTS` in `lib/amazon-api.ts`. -/
def product2 : Product :=
  { asin := "B0CX23V2ZK"
    title := "Kindle Paperwhite (16 GB) â€“ Now with a larger display"
    price := some { value := mkRat 15999 100, currency := "USD", displayAmount := "$159.99" }
    images := some { primary :=
      { small := "https://images.unsplash.com/photo-1592422546632-48d39e7d8c73?w=300&h=300&fit=crop"
        medium := "https://images.unsplash.com/photo-1592422546632-48d39e7d8c73?w=500&h=500&fit=crop"
        large := "https://images.unsplash.com/photo-1592422546632-48d39e7d8c73?w=800&h=800&fit=crop" } }
    rating := some (mkRat 46 10)
    reviewCount := some 8934
    isPrime := some true
    detailPageURL := "https://amazon.com/dp/B0CX23V2ZK"
    availability := some "In Stock"
    brand := some "Amazon"
    features := some ["6.8\" display", "Waterproof (IPX8)",
      "Weeks of battery life", "16 GB storage"] }

/-- Third entry of `MOCK_PRODUCTS` in `lib/amazon-api.ts`. -/
def product3 : Product :=
  { asin := "B0D1XD1ZV3"
    title := "Sony WH-1000XM5 Wireless Noise Cancelling Headphones"
    price := some { value := mkRat 39800 100, currency := "USD", displayAmount := "$398.00" }
    images := some { primary :=
      { small := "https://images.unsplash.com/photo-1546435770-a3e426bf472b?w=300&h=300&fit=crop"
        medium := "https://images.unsplash.com/photo-1546435770-a3e426bf472b?w=500&h=500&fit=crop"
        large := "https://images.unsplash.com/photo-1546435770-a3e426bf472b?w=800&h=800&fit=crop" } }
    rating := some (mkRat 48 10)
    reviewCount := some 5623
    isPrime := some false
    detailPageURL := "https://amazon.com/dp/B0D1XD1ZV3"
    availability := some "In Stock"
    brand := some "Sony"
    features := some ["Industry-leading noise cancellation", "Up to 30-hour battery life",
      "Crystal clear hands-free calling", "Multipoint connection"] }

/-- Fourth entry of `MOCK_PRODUCTS` in `lib/amazon-api.ts`. -/
def product4 : Product :=
  { asin := "B09G9FPHY6"
    title := "Samsung Galaxy Tab S9 11\" 128GB WiFi Tablet"
    price := some { value := mkRat 67999 100, currency := "USD", displayAmount := "$679.99" }
    images := some { primary :=
      { small := "https://images.unsplash.com/photo-1544244015-0df4b3ffc6b0?w=300&h=300&fit=crop"
        medium := "https://images.unsplash.com/photo-1544244015-0df4b3ffc6b0?w=500&h=500&fit=crop"
        large := "https://images.unsplash.com/photo-1544244015-0df4b3ffc6b0?w=800&h=800&fit=crop" } }
    rating := some (mkRat 45 10)
    reviewCount := some 3201
    isPrime := some true
    detailPageURL := "https://amazon.com/dp/B09G9FPHY6"
    availability := some "In Stock"
    brand := some "Samsung"
    features := some ["11\" Dynamic AMOLED 2X Display", "IP68 Water & Dust Resistant",
      "S Pen included", "Qualcomm Snapdragon processor"] }

/-- Fifth entry of `MOCK_PRODUCTS` in `lib/amazon-api.ts`. -/
def product5 : Product :=
  { asin := "B0BSHF7WHW"
    title := "Anker PowerCore 20000mAh Portable Charger"
    price := some { value := mkRat 4999 100, currency := "USD", displayAmount := "$49.99" }
    images := some { primary :=
      { small := "https://images.unsplash.com/photo-1609091839311-d5365f9ff1c5?w=300&h=300&fit=crop"
        medium := "https://images.unsplash.com/photo-1609091839311-d5365f9ff1c5?w=500&h=500&fit=crop"
        large := "https://images.unsplash.com/photo-1609091839311-d5365f9ff1c5?w=800&h=800&fit=crop" } }
    rating := some (mkRat 47 10)
    reviewCount := some 12450
    isPrime := some true
    detailPageURL := "https://amazon.com/dp/B0BSHF7WHW"
    availability := some "In Stock"
    brand := some "Anker"
    features := some ["20000mAh capacity", "Fast charging technology",
      "Dual USB ports", "Premium build quality"] }

/-- Sixth entry of `MOCK_PRODUCTS` in `lib/amazon-api.ts`. -/
def product6 : Product :=
  { asin := "B08XYKHSJQ"
    title := "Logitech MX Master 3S Wireless Mouse"
    price := some { value := mkRat 9999 100, currency := "USD", displayAmount := "$99.99" }
    images := some { primary :=
      { small := "https://images.unsplash.com/photo-1527864550417-7fd91fc51a46?w=300&h=300&fit=crop"
        medium := "https://images.unsplash.com/photo-1527864550417-7fd91fc51a46?w=500&h=500&fit=crop"
        large := "https://images.unsplash.com/photo-1527864550417-7fd91fc51a46?w=800&h=800&fit=crop" } }
    rating := some (mkRat 48 10)
    reviewCount := some 9876
    isPrime := some true
    detailPageURL := "https://amazon.com/dp/B08XYKHSJQ"
    availability := some "In Stock"
    brand := some "Logitech"
    features := some ["Quiet clicks", "8K DPI sensor",
      "Ergonomic design", "USB-C rechargeable"] }

/-- The module-level seed catalog `MOCK_PRODUCTS` of `lib/amazon-api.ts`. -/
def MOCK_PRODUCTS : List Product :=
  [product1, product2, product3, product4, product5, product6]

/-- The keyword predicate of `searchProducts`: its argument `keywords` is the
already-lowercased keyword string (the source computes
`params.keywords.toLowerCase()` once, before filtering), and a product passes
when `product.title.toLowerCase().includes(keywords)` or, when `brand` is
present, `product.brand.toLowerCase().includes(keywords)` holds (the source's
optional chaining on a missing `brand` yields a falsy value). -/
def matchesKeyword (keywords : String) (product : Product) : Bool :=
  includesStr (toLowerCase product.title) keywords ||
    match product.brand with
    | some b => includesStr (toLowerCase b) keywords
    | none => false

/-- The minimum-price predicate of `searchProducts`:
`product.price && product.price.value >= params.minPrice`. -/
def meetsMinPrice (minPrice : ℚ) (product : Product) : Bool :=
  match product.price with
  | some pr => decide (minPrice ≤ pr.value)
  | none => false

/-- The maximum-price predicate of `searchProducts`:
`product.price && product.price.value <= params.maxPrice`. -/
def meetsMaxPrice (maxPrice : ℚ) (product : Product) : Bool :=
  match product.price with
  | some pr => decide (pr.value ≤ maxPrice)
  | none => false

/-- First reassignment of `results` in `searchProducts`: the keyword filter is
applied only under the truthiness guard `if (params.keywords)`, which skips it
when `keywords` is absent or the empty string. -/
def keywordStep (params : SearchParams) (results : List Product) : List Product :=
  match params.keywords with
  | some kw => if kw = "" then results else results.filter (matchesKeyword (toLowerCase kw))
  | none => results

/-- Second reassignment of `results` in `searchProducts`, guarded by
`if (params.minPrice !== undefined)`. -/
def minPriceStep (params : SearchParams) (results : List Product) : List Product :=
  match params.minPrice with
  | some m => results.filter (meetsMinPrice m)
  | none => results

/-- Third reassignment of `results` in `searchProducts`, guarded by
`if (params.maxPrice !== undefined)`. -/
def maxPriceStep (params : SearchParams) (results : List Product) : List Product :=
  match params.maxPrice with
  | some m => results.filter (meetsMaxPrice m)
  | none => results

/-- The body of `searchProducts` from `lib/amazon-api.ts`, generalised over the
product array it closes over (`MOCK_PRODUCTS` in the source): starting from a
copy of the catalog, the three guarded filters are applied in sequence. The
`setTimeout` delay only suspends the promise and computes nothing, so it has no
counterpart in the embedding, and `category` and `page` are never read. -/
def searchProductsIn (catalog : List Product) (params : SearchParams) : List Product :=
  maxPriceStep params (minPriceStep params (keywordStep params catalog))

/-- `searchProducts` of `lib/amazon-api.ts`, over the module's seed catalog. -/
def searchProducts (params : SearchParams) : List Product :=
  searchProductsIn MOCK_PRODUCTS params

/-- `getProductByASIN` of `lib/amazon-api.ts`:
`MOCK_PRODUCTS.find(p => p.asin === asin)` with `undefined` coerced to `null`,
embedded as an `Option`-returning lookup. -/
def getProductByASIN (asin : String) : Option Product :=
  MOCK_PRODUCTS.find? (fun p => p.asin == asin)

/-- The body of `getFeaturedProducts`, generalised over the catalog:
`MOCK_PRODUCTS.slice(0, 4)`. -/
def getFeaturedProductsIn (catalog : List Product) : List Product :=
  catalog.take 4

/-- `getFeaturedProducts` of `lib/amazon-api.ts`. Note the source function
takes no `count` argument: the prefix length 4 is hardcoded. -/
def getFeaturedProducts : List Product :=
  getFeaturedProductsIn MOCK_PRODUCTS

/-- Modelled from the spec: section 4.1 declares the operation signature
`getFeatured(count: int = 4)`, returning "the first `count` products in
catalog storage order". No `count` parameter exists in the source, whose
`getFeaturedProducts` takes no argument; this definition follows the spec's
words so that the two can be compared. -/
def getFeaturedSpec (catalog : List Product) (count : Nat) : List Product :=
  catalog.take count

/-- The module state of `lib/amazon-api.ts`: the `MOCK_PRODUCTS` array living
at module scope. The three exported operations are embedded below as explicit
state transformers returning their result together with the post-call module
state, so that the absence of mutation is a provable statement. -/
structure CatalogState where
  products : List Product
deriving Repr, DecidableEq

/-- `searchProducts` as a state transformer on the module state. The source
starts from a fresh copy `[...MOCK_PRODUCTS]`, and `Array.prototype.filter`
allocates new arrays, so the stored array is left exactly as it was. -/
def searchProductsOp (params : SearchParams) (st : CatalogState) :
    List Product × CatalogState :=
  (searchProductsIn st.products params, st)

/-- `getProductByASIN` as a state transformer on the module state;
`Array.prototype.find` does not modify the array it searches. -/
def getProductByASINOp (asin : String) (st : CatalogState) :
    Option Product × CatalogState :=
  (st.products.find? (fun p => p.asin == asin), st)

/-- `getFeaturedProducts` as a state transformer on the module state;
`Array.prototype.slice` copies, it does not modify. -/
def getFeaturedProductsOp (st : CatalogState) :
    List Product × CatalogState :=
  (st.products.take 4, st)

/-! Helper lemmas about the filtering steps. -/

theorem mem_keywordStep {params : SearchParams} {l : List Product} {p : Product} :
    p ∈ keywordStep params l ↔
      p ∈ l ∧ ∀ kw, params.keywords = some kw → kw ≠ "" →
        matchesKeyword (toLowerCase kw) p = true := by
  unfold keywordStep
  cases h : params.keywords with
  | none => simp
  | some kw =>
      by_cases hkw : kw = ""
      · subst hkw; simp
      · simp [hkw, List.mem_filter]

theorem mem_minPriceStep {params : SearchParams} {l : List Product} {p : Product} :
    p ∈ minPriceStep params l ↔
      p ∈ l ∧ ∀ m : ℚ, params.minPrice = some m → meetsMinPrice m p = true := by
  unfold minPriceStep
  cases h : params.minPrice <;> simp [List.mem_filter]

theorem mem_maxPriceStep {params : SearchParams} {l : List Product} {p : Product} :
    p ∈ maxPriceStep params l ↔
      p ∈ l ∧ ∀ m : ℚ, params.maxPrice = some m → meetsMaxPrice m p = true := by
  unfold maxPriceStep
  cases h : params.maxPrice <;> simp [List.mem_filter]

theorem mem_searchProductsIn {catalog : List Product} {params : SearchParams}
    {p : Product} :
    p ∈ searchProductsIn catalog params ↔
      p ∈ catalog ∧
      (∀ kw, params.keywords = some kw → kw ≠ "" →
        matchesKeyword (toLowerCase kw) p = true) ∧
      (∀ m : ℚ, params.minPrice = some m → meetsMinPrice m p = true) ∧
      (∀ m : ℚ, params.maxPrice = some m → meetsMaxPrice m p = true) := by
  unfold searchProductsIn
  rw [mem_maxPriceStep, mem_minPriceStep, mem_keywordStep]
  tauto

theorem meetsMinPrice_spec {m : ℚ} {p : Product} (h : meetsMinPrice m p = true) :
    ∃ pr, p.price = some pr ∧ m ≤ pr.value := by
  unfold meetsMinPrice at h
  cases hp : p.price with
  | none => rw [hp] at h; cases h
  | some pr => rw [hp] at h; exact ⟨pr, rfl, of_decide_eq_true h⟩

theorem meetsMaxPrice_spec {m : ℚ} {p : Product} (h : meetsMaxPrice m p = true) :
    ∃ pr, p.price = some pr ∧ pr.value ≤ m := by
  unfold meetsMaxPrice at h
  cases hp : p.price with
  | none => rw [hp] at h; cases h
  | some pr => rw [hp] at h; exact ⟨pr, rfl, of_decide_eq_true h⟩

theorem keywordStep_sublist (params : SearchParams) (l : List Product) :
    (keywordStep params l).Sublist l := by
  unfold keywordStep
  cases params.keywords with
  | none => exact List.Sublist.refl l
  | some kw =>
      dsimp only
      by_cases hkw : kw = ""
      · rw [if_pos hkw]
      · rw [if_neg hkw]; exact List.filter_sublist l

theorem minPriceStep_sublist (params : SearchParams) (l : List Product) :
    (minPriceStep params l).Sublist l := by
  unfold minPriceStep
  cases params.minPrice with
  | none => exact List.Sublist.refl l
  | some m => exact List.filter_sublist l

theorem maxPriceStep_sublist (params : SearchParams) (l : List Product) :
    (maxPriceStep params l).Sublist l := by
  unfold maxPriceStep
  cases params.maxPrice with
  | none => exact List.Sublist.refl l
  | some m => exact List.filter_sublist l

theorem searchProductsIn_sublist (catalog : List Product) (params : SearchParams) :
    (searchProductsIn catalog params).Sublist catalog :=
  ((maxPriceStep_sublist params _).trans (minPriceStep_sublist params _)).trans
    (keywordStep_sublist params catalog)

theorem keywordStep_congr {c1 c2 : SearchParams} (h : c1.keywords = c2.keywords)
    (l : List Product) : keywordStep c1 l = keywordStep c2 l := by
  unfold keywordStep; rw [h]

theorem minPriceStep_congr {c1 c2 : SearchParams} (h : c1.minPrice = c2.minPrice)
    (l : List Product) : minPriceStep c1 l = minPriceStep c2 l := by
  unfold minPriceStep; rw [h]

theorem maxPriceStep_congr {c1 c2 : SearchParams} (h : c1.maxPrice = c2.maxPrice)
    (l : List Product) : maxPriceStep c1 l = maxPriceStep c2 l := by
  unfold maxPriceStep; rw [h]

theorem mock_asins_nodup : (MOCK_PRODUCTS.map Product.asin).Nodup := by decide

theorem mock_products_nodup : MOCK_PRODUCTS.Nodup :=
  List.Nodup.of_map Product.asin mock_asins_nodup

theorem find?_asin_of_mem {catalog : List Product}
    (hnd : (catalog.map Product.asin).Nodup) {p : Product} (hp : p ∈ catalog) :
    catalog.find? (fun q => q.asin == p.asin) = some p := by
  induction catalog with
  | nil => cases hp
  | cons q rest ih =>
      rw [List.map_cons, List.nodup_cons] at hnd
      rcases List.mem_cons.mp hp with rfl | hmem
      · exact List.find?_cons_of_pos _ (by simp)
      · have hne : ¬((fun q2 : Product => q2.asin == p.asin) q) = true := by
          simp only [beq_iff_eq]
          intro he
          exact hnd.1 (by rw [he]; exact List.mem_map_of_mem Product.asin hmem)
        rw [@List.find?_cons_of_neg Product (fun q2 => q2.asin == p.asin) q rest hne]
        exact ih hnd.2 hmem

theorem toLowerCase_eq_empty_iff {s : String} : toLowerCase s = "" ↔ s = "" := by
  cases s with
  | mk data =>
      constructor
      · intro h
        have hd := congrArg String.data h
        simp only [toLowerCase] at hd
        have hnil : data = [] := List.map_eq_nil_iff.mp hd
        simp [hnil]
      · intro h
        rw [h]
        rfl

/-! Claim theorems. -/

/-- C1 counterexample: with a criteria that supplies the non-empty keyword
"apple" together with a minimum price of 1000000, the catalog product
`product1` satisfies the keyword condition (lowercased keyword occurs in the
lowercased title, and in the lowercased brand) yet is not included in the
search result, so inclusion is not equivalent to the keyword condition for
every criteria with a supplied non-empty keywords string. -/
theorem claim_C1_counterexample :
    product1 ∈ MOCK_PRODUCTS ∧
    matchesKeyword (toLowerCase "apple") product1 = true ∧
    product1 ∉ searchProductsIn MOCK_PRODUCTS
      { keywords := some "apple", category := none, minPrice := some 1000000,
        maxPrice := none, page := none } := by
  refine ⟨by simp [MOCK_PRODUCTS], by decide, ?_⟩
  have h : searchProductsIn MOCK_PRODUCTS
      { keywords := some "apple", category := none, minPrice := some 1000000,
        maxPrice := none, page := none } = [] := by decide
  simp [h]

/-- C1 (amended): for every criteria with a supplied non-empty keywords string
k, a product included in the result of search satisfies the keyword condition
(the lowercased k is a substring of the lowercased title, or of the lowercased
brand when brand is present; a product with no brand can still match via its
title); and when additionally no price bound is supplied, a catalog product is
included exactly when the keyword condition holds. -/
theorem claim_C1_keyword_filter :
    ∀ (catalog : List Product) (params : SearchParams) (k : String) (p : Product),
      params.keywords = some k → k ≠ "" →
      (p ∈ searchProductsIn catalog params → matchesKeyword (toLowerCase k) p = true) ∧
      (params.minPrice = none → params.maxPrice = none →
        (p ∈ searchProductsIn catalog params ↔
          p ∈ catalog ∧ matchesKeyword (toLowerCase k) p = true)) := by
  intro catalog params k p hk hne
  constructor
  · intro hp
    exact (mem_searchProductsIn.mp hp).2.1 k hk hne
  · intro hmin hmax
    constructor
    · intro hp
      rcases mem_searchProductsIn.mp hp with ⟨h1, h2, -, -⟩
      exact ⟨h1, h2 k hk hne⟩
    · rintro ⟨h1, h2⟩
      refine mem_searchProductsIn.mpr ⟨h1, ?_, ?_, ?_⟩
      · intro kw hkw hkwne
        rw [hk, Option.some.injEq] at hkw
        rw [← hkw]
        exact h2
      · intro m hm
        rw [hmin] at hm
        cases hm
      · intro m hm
        rw [hmax] at hm
        cases hm

/-- C1 witness: the criteria with keyword "apple" and no other filter includes
the catalog product `product1`, whose title and brand contain "apple" after
lowercasing. -/
theorem claim_C1_keyword_filter_witness :
    product1 ∈ searchProductsIn MOCK_PRODUCTS
      { keywords := some "apple", category := none, minPrice := none,
        maxPrice := none, page := none } :=
  ((claim_C1_keyword_filter MOCK_PRODUCTS
      { keywords := some "apple", category := none, minPrice := none,
        maxPrice := none, page := none }
      "apple" product1 rfl (by decide)).2 rfl rfl).mpr
    ⟨by simp [MOCK_PRODUCTS], by decide⟩

/-- C2: when `minPrice` is supplied, every product included in the search
result has a price whose amount is at least `minPrice`; symmetrically for
`maxPrice` (both bounds inclusive); and a product lacking a price is never
included when either bound is supplied. -/
theorem claim_C2_price_bounds :
    ∀ (catalog : List Product) (params : SearchParams) (p : Product),
      p ∈ searchProductsIn catalog params →
      (∀ m : ℚ, params.minPrice = some m → ∃ pr, p.price = some pr ∧ m ≤ pr.value) ∧
      (∀ m : ℚ, params.maxPrice = some m → ∃ pr, p.price = some pr ∧ pr.value ≤ m) ∧
      ((params.minPrice ≠ none ∨ params.maxPrice ≠ none) → p.price ≠ none) := by
  intro catalog params p hp
  rcases mem_searchProductsIn.mp hp with ⟨-, -, hmin, hmax⟩
  refine ⟨fun m hm => meetsMinPrice_spec (hmin m hm),
    fun m hm => meetsMaxPrice_spec (hmax m hm), ?_⟩
  rintro (hne | hne)
  · rcases Option.ne_none_iff_exists.mp hne with ⟨m, hm⟩
    rcases meetsMinPrice_spec (hmin m hm.symm) with ⟨pr, hpr, -⟩
    simp [hpr]
  · rcases Option.ne_none_iff_exists.mp hne with ⟨m, hm⟩
    rcases meetsMaxPrice_spec (hmax m hm.symm) with ⟨pr, hpr, -⟩
    simp [hpr]

/-- C2 witness: `product3` (price 398.00) is in the result of searching with
minimum price 300, and the theorem yields its price bound. -/
theorem claim_C2_price_bounds_witness :
    ∃ pr, product3.price = some pr ∧ (300 : ℚ) ≤ pr.value :=
  (claim_C2_price_bounds MOCK_PRODUCTS
      { keywords := none, category := none, minPrice := some 300,
        maxPrice := none, page := none }
      product3 (by decide)).1 300 rfl

/-- C3: searching with the empty/default criteria returns every product of
the catalog, in original storage order, with no duplicates and no omissions:
the result is the catalog itself, and on the seed data `searchProducts`
returns `MOCK_PRODUCTS`. -/
theorem claim_C3_empty_search :
    (∀ catalog : List Product, searchProductsIn catalog emptyParams = catalog) ∧
    searchProducts emptyParams = MOCK_PRODUCTS :=
  ⟨fun _ => rfl, rfl⟩

/-- C4: for every product stored in the catalog, `getProductByASIN` at its
asin returns exactly that product (exact, case-sensitive equality on the id),
and for every identifier matching no stored product it returns `none`, the
ordinary non-exceptional "not found" signal. -/
theorem claim_C4_get_by_id :
    (∀ p ∈ MOCK_PRODUCTS, getProductByASIN p.asin = some p) ∧
    (∀ x : String, (∀ p ∈ MOCK_PRODUCTS, p.asin ≠ x) → getProductByASIN x = none) := by
  constructor
  · intro p hp
    exact find?_asin_of_mem mock_asins_nodup hp
  · intro x hx
    exact List.find?_eq_none.mpr (fun p hp => by simp [hx p hp])

/-- C4 witness: looking up the asin of `product1` returns `product1`, and the
identifier "B000000000", which belongs to no stored product, returns `none`. -/
theorem claim_C4_get_by_id_witness :
    getProductByASIN product1.asin = some product1 ∧
    getProductByASIN "B000000000" = none :=
  ⟨claim_C4_get_by_id.1 product1 (by simp [MOCK_PRODUCTS]),
   claim_C4_get_by_id.2 "B000000000" (by decide)⟩

/-- C5 counterexample: the source's `getFeaturedProducts` takes no count
argument and always returns the first 4 products; for the requested count 2
the spec-modelled operation returns min(2, catalogSize) = 2 products, which
differs from what the code computes. -/
theorem claim_C5_counterexample :
    getFeaturedProducts.length = 4 ∧
    min 2 MOCK_PRODUCTS.length = 2 ∧
    getFeaturedProducts ≠ getFeaturedSpec MOCK_PRODUCTS 2 := by
  refine ⟨rfl, rfl, ?_⟩
  decide

/-- C5 (amended): `getFeaturedProducts` takes no count argument; it returns
exactly min(4, catalogSize) products, namely the first 4 products of the
catalog in storage order, and this result is a prefix of the result of search
with empty criteria; when the catalog holds fewer than 4 items all of them
are returned, with no error and no padding. -/
theorem claim_C5_featured_prefix :
    ∀ catalog : List Product,
      (getFeaturedProductsIn catalog).length = min 4 catalog.length ∧
      getFeaturedProductsIn catalog <+: searchProductsIn catalog emptyParams := by
  intro catalog
  constructor
  · simp [getFeaturedProductsIn]
  · exact List.take_prefix 4 catalog

/-- C6: keyword search is case-insensitive: two keyword strings with the same
lowercasing (in particular a keyword and any case variant of it) yield
identical result sequences. -/
theorem claim_C6_case_insensitive :
    ∀ (catalog : List Product) (k1 k2 : String),
      toLowerCase k1 = toLowerCase k2 →
      searchProductsIn catalog
        { keywords := some k1, category := none, minPrice := none,
          maxPrice := none, page := none } =
      searchProductsIn catalog
        { keywords := some k2, category := none, minPrice := none,
          maxPrice := none, page := none } := by
  intro catalog k1 k2 h
  show keywordStep
      { keywords := some k1, category := none, minPrice := none,
        maxPrice := none, page := none } catalog =
    keywordStep
      { keywords := some k2, category := none, minPrice := none,
        maxPrice := none, page := none } catalog
  unfold keywordStep
  dsimp only
  by_cases h1 : k1 = ""
  · have h2 : k2 = "" := toLowerCase_eq_empty_iff.mp (by rw [← h, h1]; rfl)
    rw [if_pos h1, if_pos h2]
  · have h2 : k2 ≠ "" := fun he => h1 (toLowerCase_eq_empty_iff.mp (by rw [h, he]; rfl))
    rw [if_neg h1, if_neg h2, h]

/-- C6 witness: searching for "apple" and for "APPLE" yields identical result
sequences on the seed catalog. -/
theorem claim_C6_case_insensitive_witness :
    searchProducts
      { keywords := some "apple", category := none, minPrice := none,
        maxPrice := none, page := none } =
    searchProducts
      { keywords := some "APPLE", category := none, minPrice := none,
        maxPrice := none, page := none } :=
  claim_C6_case_insensitive MOCK_PRODUCTS "apple" "APPLE" (by decide)

/-- C7: when both bounds are supplied with the minimum strictly above the
maximum, search raises no error and returns the empty result sequence,
whatever the other criteria fields are. -/
theorem claim_C7_min_above_max :
    ∀ (catalog : List Product) (kw cat : Option String) (pg : Option Nat)
      (minP maxP : ℚ),
      maxP < minP →
      searchProductsIn catalog
        { keywords := kw, category := cat, minPrice := some minP,
          maxPrice := some maxP, page := pg } = [] := by
  intro catalog kw cat pg minP maxP hlt
  rw [List.eq_nil_iff_forall_not_mem]
  intro p hp
  rcases mem_searchProductsIn.mp hp with ⟨-, -, hmin, hmax⟩
  rcases meetsMinPrice_spec (hmin minP rfl) with ⟨pr, hpr, hle1⟩
  rcases meetsMaxPrice_spec (hmax maxP rfl) with ⟨pr2, hpr2, hle2⟩
  rw [hpr, Option.some.injEq] at hpr2
  rw [← hpr2] at hle2
  exact absurd (hle1.trans hle2) (not_le.mpr hlt)

/-- C7 witness: a search with minimum price 10 and maximum price 5 returns
the empty sequence on the seed catalog. -/
theorem claim_C7_min_above_max_witness :
    searchProducts
      { keywords := none, category := none, minPrice := some 10,
        maxPrice := some 5, page := none } = [] :=
  claim_C7_min_above_max MOCK_PRODUCTS none none none 10 5 (by norm_num)

/-- C8: every operation leaves the module state (the stored catalog of
products) unchanged, and running any of the three operations twice with
identical input, the second call starting from the state the first call left
behind, yields identical output. -/
theorem claim_C8_read_only :
    ∀ (st : CatalogState) (params : SearchParams) (a : String),
      (searchProductsOp params st).2 = st ∧
      (getProductByASINOp a st).2 = st ∧
      (getFeaturedProductsOp st).2 = st ∧
      (searchProductsOp params ((searchProductsOp params st).2)).1 =
        (searchProductsOp params st).1 ∧
      (getProductByASINOp a ((getProductByASINOp a st).2)).1 =
        (getProductByASINOp a st).1 ∧
      (getFeaturedProductsOp ((getFeaturedProductsOp st).2)).1 =
        (getFeaturedProductsOp st).1 :=
  fun _ _ _ => ⟨rfl, rfl, rfl, rfl, rfl, rfl⟩

/-- C9: the reserved criteria fields `category` and `page` never influence the
search result: two criteria agreeing on `keywords`, `minPrice` and `maxPrice`
yield identical result sequences, however they differ on `category` or
`page`. -/
theorem claim_C9_reserved_fields :
    ∀ (catalog : List Product) (c1 c2 : SearchParams),
      c1.keywords = c2.keywords → c1.minPrice = c2.minPrice →
      c1.maxPrice = c2.maxPrice →
      searchProductsIn catalog c1 = searchProductsIn catalog c2 := by
  intro catalog c1 c2 h1 h2 h3
  unfold searchProductsIn
  rw [keywordStep_congr h1, minPriceStep_congr h2, maxPriceStep_congr h3]

/-- C9 witness: two criteria sharing the keyword "sony" but with different
`category` and `page` values yield identical results on the seed catalog. -/
theorem claim_C9_reserved_fields_witness :
    searchProductsIn MOCK_PRODUCTS
      { keywords := some "sony", category := some "electronics",
        minPrice := none, maxPrice := none, page := some 1 } =
    searchProductsIn MOCK_PRODUCTS
      { keywords := some "sony", category := some "books",
        minPrice := none, maxPrice := none, page := some 99 } :=
  claim_C9_reserved_fields MOCK_PRODUCTS _ _ rfl rfl rfl

/-- C10: for every criteria the result of search is an order-preserving
subsequence of the catalog (so any two products appearing in the result keep
their relative storage order), and on the seed catalog, whose products are
pairwise distinct, no product appears more than once in any result. -/
theorem claim_C10_order_preserving :
    (∀ (catalog : List Product) (params : SearchParams),
      (searchProductsIn catalog params).Sublist catalog) ∧
    (∀ params : SearchParams, (searchProducts params).Nodup) :=
  ⟨searchProductsIn_sublist,
   fun params =>
     List.Nodup.sublist (searchProductsIn_sublist MOCK_PRODUCTS params)
       mock_products_nodup⟩

end Onlinez
